import Mathlib

/-!
Verification of the poll server actions of the `alx-polly` repository.

The repository's business logic lives in `app/lib/actions/poll-actions.ts`
(present in two revisions: an earlier one and a final one that adds a
DOMPurify-based input sanitizer to the create path) and in the auth actions
file (`login`, `register`, `logout`).  Each server action is embedded below as
a pure Lean function from the ambient session state, the backend's behaviour
and the submitted form data to the returned result object together with the
trace of backend calls it issues.
-/

/-- An authenticated user as returned by the auth backend's `getUser`. -/
structure AuthUser where
  id : String
deriving DecidableEq, Repr

/-- The ambient session state read by `supabase.auth.getUser()`:
`data.user` (null when nobody is logged in) and the in-band `error`. -/
structure AuthState where
  user : Option AuthUser
  userError : Option String
deriving DecidableEq, Repr

/-- A row of the `polls` table: `polls(id, user_id, question, options[], created_at)`.
`id` and `created_at` are backend-generated. -/
structure Poll where
  id : String
  user_id : String
  question : String
  options : List String
  created_at : Nat
deriving DecidableEq, Repr

/-- A row of the `votes` table: `votes(poll_id, user_id nullable, option_index)`. -/
structure Vote where
  poll_id : String
  user_id : Option String
  option_index : Int
deriving DecidableEq, Repr

/-- The data backend's behaviour for one request: the current contents of the
`polls` table, the error (if any) each kind of statement would report, and the
values the backend would generate for an inserted poll row. -/
structure DbBackend where
  polls : List Poll
  insertPollError : Option String
  insertVoteError : Option String
  updateError : Option String
  deleteError : Option String
  selectError : Option String
  genId : String
  genCreatedAt : Nat
deriving DecidableEq, Repr

/-- The form data a poll form submits: `formData.get("question")` and
`formData.getAll("options")`.  A missing question field (JS `null`) is
modelled as the empty string, which `!question` treats identically. -/
structure FormData where
  question : String
  options : List String
deriving DecidableEq, Repr

/-- One backend call issued by an action: the auth lookup, the three kinds of
writes (with the filters and values the statement carries), and the
`revalidatePath` staleness signal. -/
inductive Effect where
  | authGetUser
  | insertPoll (id : String) (user_id : String) (question : String)
      (options : List String) (created_at : Nat)
  | insertVote (poll_id : String) (user_id : Option String) (option_index : Int)
  | updateWhere (id : String) (user_id : String) (question : String)
      (options : List String)
  | deleteWhere (id : String)
  | revalidate (path : String)
deriving DecidableEq, Repr

/-- Whether a backend call writes to the data store. -/
def Effect.isWrite : Effect → Bool
  | .insertPoll _ _ _ _ _ => true
  | .insertVote _ _ _ => true
  | .updateWhere _ _ _ _ => true
  | .deleteWhere _ => true
  | _ => false

/-- The uniform `{ error: string | null }` result object of the actions. -/
structure ActionResult where
  error : Option String
deriving DecidableEq, Repr

/-- The `{ polls, error }` result of `getUserPolls`. -/
structure PollsResult where
  polls : List Poll
  error : Option String
deriving DecidableEq, Repr

/-- The `{ poll, error }` result of `getPollById`. -/
structure PollResult where
  poll : Option Poll
  error : Option String
deriving DecidableEq, Repr

/-- A JavaScript call either returns a value or throws an exception. -/
inductive JsOutcome (α : Type) where
  | ret (value : α)
  | thrown (message : String)
deriving DecidableEq, Repr

/-- Lexer state of the sanitizer model: plain text, inside a tag (remembering
whether it opened a script element), or inside a script element's content. -/
inductive SanMode where
  | text
  | tag (isScript : Bool)
  | script
deriving DecidableEq, Repr

/-- Modelled from the spec: the repository's `sanitizeInput` delegates to the
DOMPurify library (`purify.sanitize`), whose implementation is not part of
this repository.  Spec section 4.1: the sanitizer "Removes HTML/script
content, returning plain content safe for storage and later rendering".
Modelled as a scanner that drops every tag (a region from a left angle
bracket to the next right angle bracket) and drops the entire content of
script elements, keeping all other text. -/
def san : SanMode → List Char → List Char
  | _, [] => []
  | .text, c :: t =>
      if c = '<' then san (.tag ("script".data.isPrefixOf t)) t
      else c :: san .text t
  | .tag isScr, c :: t =>
      if c = '>' then san (if isScr then .script else .text) t
      else san (.tag isScr) t
  | .script, c :: t =>
      if c = '<' ∧ "/script>".data.isPrefixOf t then san (.tag false) t
      else san .script t

/-- Modelled from the spec: `sanitizeInput` (final revision, lines 241 to 243)
wraps `purify.sanitize`; see `san` for what is modelled. -/
def sanitizeInput (s : String) : String :=
  String.mk (san .text s.data)

/-- The option filter test `option.trim() !== ""` of the final-revision create
path: trimming removes leading and trailing whitespace, so the trimmed string
is nonempty exactly when some character of the string is not whitespace. -/
def trimmedNonempty (o : String) : Bool :=
  o.data.any (fun c => !c.isWhitespace)

/-- The descending `created_at` order used by
`order("created_at", { ascending: false })`. -/
def createdGe (a b : Poll) : Prop :=
  b.created_at ≤ a.created_at

instance : DecidableRel createdGe :=
  fun a b => Nat.decLe b.created_at a.created_at

instance : IsTotal Poll createdGe :=
  ⟨fun a b => (Nat.le_total b.created_at a.created_at).elim Or.inl Or.inr⟩

instance : IsTrans Poll createdGe :=
  ⟨fun _ _ _ hab hbc => Nat.le_trans hbc hab⟩

/-- The rows `select * from polls where user_id = uid order by created_at desc`
returns. -/
def selectByOwner (t : List Poll) (uid : String) : List Poll :=
  List.insertionSort createdGe (t.filter (fun p => decide (p.user_id = uid)))

/-- `createPoll` of the first revision (`poll-actions.ts` lines 18 to 61):
reads the question, filters falsy (empty) options, validates, looks up the
user, and inserts the new poll row before marking `/polls` stale. -/
def createPoll (auth : AuthState) (db : DbBackend) (fd : FormData) :
    ActionResult × List Effect :=
  let question := fd.question
  let options := fd.options.filter (fun o => decide (o ≠ ""))
  if question = "" ∨ options.length < 2 then
    (⟨some "Please provide a question and at least two options."⟩, [])
  else
    match auth.userError with
    | some m => (⟨some m⟩, [.authGetUser])
    | none =>
      match auth.user with
      | none => (⟨some "You must be logged in to create a poll."⟩, [.authGetUser])
      | some user =>
        match db.insertPollError with
        | some m =>
            (⟨some m⟩,
             [.authGetUser,
              .insertPoll db.genId user.id question options db.genCreatedAt])
        | none =>
            (⟨none⟩,
             [.authGetUser,
              .insertPoll db.genId user.id question options db.genCreatedAt,
              .revalidate "/polls"])

/-- `createPoll` of the final revision (lines 252 to 285): sanitizes the
question, filters options that are blank after trimming and sanitizes each
remaining one, then proceeds as the first revision. -/
def createPollFinal (auth : AuthState) (db : DbBackend) (fd : FormData) :
    ActionResult × List Effect :=
  let question := sanitizeInput fd.question
  let options := (fd.options.filter trimmedNonempty).map sanitizeInput
  if question = "" ∨ options.length < 2 then
    (⟨some "Please provide a question and at least two options."⟩, [])
  else
    match auth.userError with
    | some m => (⟨some m⟩, [.authGetUser])
    | none =>
      match auth.user with
      | none => (⟨some "You must be logged in to create a poll."⟩, [.authGetUser])
      | some user =>
        match db.insertPollError with
        | some m =>
            (⟨some m⟩,
             [.authGetUser,
              .insertPoll db.genId user.id question options db.genCreatedAt])
        | none =>
            (⟨none⟩,
             [.authGetUser,
              .insertPoll db.genId user.id question options db.genCreatedAt,
              .revalidate "/polls"])

/-- `getUserPolls` of the first revision (lines 73 to 91): destructures only
`data.user` (ignoring the auth error), returns `{ polls: [], error: "Not
authenticated" }` when no user is present, and otherwise selects the caller's
polls ordered by `created_at` descending. -/
def getUserPolls (auth : AuthState) (db : DbBackend) :
    PollsResult × List Effect :=
  match auth.user with
  | none => (⟨[], some "Not authenticated"⟩, [.authGetUser])
  | some user =>
    match db.selectError with
    | some m => (⟨[], some m⟩, [.authGetUser])
    | none => (⟨selectByOwner db.polls user.id, none⟩, [.authGetUser])

/-- `getUserPolls` of the final revision (lines 293 to 311): destructures
`data.user.id` directly; when `data.user` is null this destructuring throws a
TypeError instead of returning a result object. -/
def getUserPollsFinal (auth : AuthState) (db : DbBackend) :
    JsOutcome (PollsResult × List Effect) :=
  match auth.user with
  | none =>
      .thrown "TypeError: Cannot destructure property 'id' of 'user' as it is null."
  | some user =>
    match db.selectError with
    | some m => .ret (⟨[], some m⟩, [.authGetUser])
    | none => .ret (⟨selectByOwner db.polls user.id, none⟩, [.authGetUser])

/-- `getPollById` (identical in both revisions, lines 104 to 115): selects the
single row with the given id; `.single()` reports an error unless exactly one
row matches.  The session is never consulted. -/
def getPollById (_caller : AuthState) (db : DbBackend) (id : String) :
    PollResult × List Effect :=
  match db.selectError with
  | some m => (⟨none, some m⟩, [])
  | none =>
    match db.polls.filter (fun p => decide (p.id = id)) with
    | [p] => (⟨some p, none⟩, [])
    | _ => (⟨none, some "JSON object requested, multiple (or no) rows returned"⟩, [])

/-- `submitVote` (identical in both revisions, lines 129 to 149): reads the
user without requiring one and inserts a vote row carrying `user?.id ?? null`. -/
def submitVote (auth : AuthState) (db : DbBackend) (pollId : String)
    (optionIndex : Int) : ActionResult × List Effect :=
  let eff := Effect.insertVote pollId (auth.user.map AuthUser.id) optionIndex
  match db.insertVoteError with
  | some m => (⟨some m⟩, [.authGetUser, eff])
  | none => (⟨none⟩, [.authGetUser, eff])

/-- `deletePoll` (identical in both revisions, lines 162 to 170): never reads
the session; deletes the rows matching `id` and marks `/polls` stale on
success. -/
def deletePoll (_caller : AuthState) (db : DbBackend) (id : String) :
    ActionResult × List Effect :=
  match db.deleteError with
  | some m => (⟨some m⟩, [.deleteWhere id])
  | none => (⟨none⟩, [.deleteWhere id, .revalidate "/polls"])

/-- `updatePoll` (identical in both revisions, lines 185 to 224): validates
the raw question and falsy-filtered options, looks up the user, and issues an
update filtered by both the poll id and the caller's user id.  No
sanitization is applied and `/polls` is not revalidated. -/
def updatePoll (auth : AuthState) (db : DbBackend) (pollId : String)
    (fd : FormData) : ActionResult × List Effect :=
  let question := fd.question
  let options := fd.options.filter (fun o => decide (o ≠ ""))
  if question = "" ∨ options.length < 2 then
    (⟨some "Please provide a question and at least two options."⟩, [])
  else
    match auth.userError with
    | some m => (⟨some m⟩, [.authGetUser])
    | none =>
      match auth.user with
      | none => (⟨some "You must be logged in to update a poll."⟩, [.authGetUser])
      | some user =>
        match db.updateError with
        | some m =>
            (⟨some m⟩, [.authGetUser, .updateWhere pollId user.id question options])
        | none =>
            (⟨none⟩, [.authGetUser, .updateWhere pollId user.id question options])

/-- The login form data of the auth actions file. -/
structure LoginFormData where
  email : String
  password : String
deriving DecidableEq, Repr

/-- The registration form data of the auth actions file. -/
structure RegisterFormData where
  name : String
  email : String
  password : String
deriving DecidableEq, Repr

/-- The auth backend's behaviour for the three auth pass-through actions. -/
structure AuthBackend where
  signInError : Option String
  signUpError : Option String
  signOutError : Option String
deriving DecidableEq, Repr

/-- `login` (auth actions file): passes the credentials to
`signInWithPassword` and returns its error verbatim, or null. -/
def login (b : AuthBackend) (_data : LoginFormData) : ActionResult :=
  ⟨b.signInError⟩

/-- `register` (auth actions file): passes the data to `signUp` and returns
its error verbatim, or null. -/
def register (b : AuthBackend) (_data : RegisterFormData) : ActionResult :=
  ⟨b.signUpError⟩

/-- `logout` (auth actions file): delegates to `signOut`. -/
def logout (b : AuthBackend) : ActionResult :=
  ⟨b.signOutError⟩

/-- The effect of one successful backend call on the `polls` table: inserts
append the generated row, updates rewrite exactly the rows matching both
filters, deletes keep exactly the rows not matching the id filter. -/
def applyEffect (t : List Poll) : Effect → List Poll
  | .insertPoll i uid q opts c => t ++ [⟨i, uid, q, opts, c⟩]
  | .updateWhere i uid q opts =>
      t.map (fun p =>
        if p.id = i ∧ p.user_id = uid then { p with question := q, options := opts }
        else p)
  | .deleteWhere i => t.filter (fun p => decide (p.id ≠ i))
  | _ => t

/-- Runs a trace of backend calls over the `polls` table. -/
def applyTrace (t : List Poll) (tr : List Effect) : List Poll :=
  tr.foldl applyEffect t

/-- The effect of one successful backend call on the `votes` table. -/
def applyVoteEffect (vs : List Vote) : Effect → List Vote
  | .insertVote pid uid idx => vs ++ [⟨pid, uid, idx⟩]
  | _ => vs

/-- Runs a trace of backend calls over the `votes` table. -/
def applyVoteTrace (vs : List Vote) (tr : List Effect) : List Vote :=
  tr.foldl applyVoteEffect vs

/-- Concrete user for witnesses. -/
def userA : AuthUser := ⟨"user-a"⟩

/-- Concrete user for witnesses. -/
def userB : AuthUser := ⟨"user-b"⟩

/-- Session with user A logged in. -/
def authA : AuthState := ⟨some userA, none⟩

/-- Session with user B logged in. -/
def authB : AuthState := ⟨some userB, none⟩

/-- Anonymous session: `getUser` yields no user and no error. -/
def authAnon : AuthState := ⟨none, none⟩

/-- Concrete poll owned by user A. -/
def pollA : Poll := ⟨"poll-1", "user-a", "Lunch?", ["Pizza", "Salad"], 5⟩

/-- Concrete poll owned by user B. -/
def pollB : Poll := ⟨"poll-2", "user-b", "Tea?", ["Green", "Black"], 9⟩

/-- A healthy backend holding `pollA` and `pollB`: every statement succeeds. -/
def dbOk : DbBackend := ⟨[pollA, pollB], none, none, none, none, none, "gen-1", 42⟩

/-! ### Helper lemmas -/

/-- The sanitizer never emits a left angle bracket: text mode drops it and the
other modes emit nothing. -/
lemma san_lt_not_mem (l : List Char) : ∀ m : SanMode, '<' ∉ san m l := by
  induction l with
  | nil => intro m; simp [san]
  | cons c t ih =>
    intro m
    cases m with
    | text =>
      by_cases hc : c = '<'
      · simp only [san, if_pos hc]; exact ih _
      · simp only [san, if_neg hc]
        intro hmem
        rcases List.mem_cons.mp hmem with h | h
        · exact hc h.symm
        · exact ih _ h
    | tag isScr =>
      by_cases hc : c = '>'
      · simp only [san, if_pos hc]; exact ih _
      · simp only [san, if_neg hc]; exact ih _
    | script =>
      by_cases hc : c = '<' ∧ ("/script>".data.isPrefixOf t : Bool)
      · simp only [san, if_pos hc]; exact ih _
      · simp only [san, if_neg hc]; exact ih _

/-- On input without a left angle bracket the sanitizer is the identity. -/
lemma san_text_id (l : List Char) (h : '<' ∉ l) : san .text l = l := by
  induction l with
  | nil => rfl
  | cons c t ih =>
    have hc : ¬c = '<' := by
      intro he
      exact h (he ▸ List.mem_cons_self c t)
    simp only [san, if_neg hc]
    rw [ih (fun hm => h (List.mem_cons_of_mem c hm))]

/-- A string whose trimmed form is nonempty is itself nonempty. -/
lemma ne_empty_of_trimmedNonempty {o : String} (h : trimmedNonempty o = true) :
    o ≠ "" := by
  intro he
  subst he
  exact absurd h (by decide)

/-- Filtering with a stronger test keeps at most as many elements. -/
lemma length_filter_mono {p q : String → Bool} (l : List String)
    (h : ∀ a, p a = true → q a = true) :
    (l.filter p).length ≤ (l.filter q).length := by
  induction l with
  | nil => simp
  | cons a t ih =>
    simp only [List.filter_cons]
    by_cases hp : p a = true
    · rw [if_pos hp, if_pos (h a hp)]
      simpa using ih
    · rw [if_neg hp]
      by_cases hq : q a = true
      · rw [if_pos hq]
        simp only [List.length_cons]
        exact Nat.le_trans ih (Nat.le_succ _)
      · rw [if_neg hq]; exact ih

/-- First-revision `createPoll` on invalid form data: the validation message
is returned before any backend call. -/
lemma createPoll_invalid (auth : AuthState) (db : DbBackend) (fd : FormData)
    (h : fd.question = "" ∨ (fd.options.filter (fun o => decide (o ≠ ""))).length < 2) :
    createPoll auth db fd =
      (⟨some "Please provide a question and at least two options."⟩, []) := by
  simp only [createPoll]
  rw [if_pos h]

/-- Final-revision `createPoll` on form data that is invalid in the claim's
sense (empty question or fewer than two nonempty options): the validation
message is returned before any backend call. -/
lemma createPollFinal_invalid (auth : AuthState) (db : DbBackend) (fd : FormData)
    (h : fd.question = "" ∨ (fd.options.filter (fun o => decide (o ≠ ""))).length < 2) :
    createPollFinal auth db fd =
      (⟨some "Please provide a question and at least two options."⟩, []) := by
  have hc : sanitizeInput fd.question = "" ∨
      ((fd.options.filter trimmedNonempty).map sanitizeInput).length < 2 := by
    rcases h with h | h
    · exact Or.inl (by rw [h]; rfl)
    · refine Or.inr ?_
      rw [List.length_map]
      exact Nat.lt_of_le_of_lt
        (length_filter_mono _
          (fun a ha => decide_eq_true (ne_empty_of_trimmedNonempty ha))) h
  simp only [createPollFinal]
  rw [if_pos hc]

/-- `updatePoll` on invalid form data: the validation message is returned
before any backend call. -/
lemma updatePoll_invalid (auth : AuthState) (db : DbBackend) (pollId : String)
    (fd : FormData)
    (h : fd.question = "" ∨ (fd.options.filter (fun o => decide (o ≠ ""))).length < 2) :
    updatePoll auth db pollId fd =
      (⟨some "Please provide a question and at least two options."⟩, []) := by
  simp only [updatePoll]
  rw [if_pos h]

/-- First-revision `createPoll` with valid form data and no logged-in user:
the auth error is surfaced verbatim when present, else the fixed message, and
only the auth lookup is issued. -/
lemma createPoll_unauth (auth : AuthState) (db : DbBackend) (fd : FormData)
    (hq : fd.question ≠ "")
    (ho : 2 ≤ (fd.options.filter (fun o => decide (o ≠ ""))).length)
    (hu : auth.user = none) :
    createPoll auth db fd =
      (⟨some (auth.userError.getD "You must be logged in to create a poll.")⟩,
       [.authGetUser]) := by
  have hc : ¬(fd.question = "" ∨
      (fd.options.filter (fun o => decide (o ≠ ""))).length < 2) := by
    push_neg
    exact ⟨hq, ho⟩
  simp only [createPoll]
  rw [if_neg hc]
  cases hue : auth.userError with
  | some m => simp
  | none => simp [hu]

/-- Final-revision `createPoll` with valid form data and no logged-in user. -/
lemma createPollFinal_unauth (auth : AuthState) (db : DbBackend) (fd : FormData)
    (hsq : sanitizeInput fd.question ≠ "")
    (hto : 2 ≤ (fd.options.filter trimmedNonempty).length)
    (hu : auth.user = none) :
    createPollFinal auth db fd =
      (⟨some (auth.userError.getD "You must be logged in to create a poll.")⟩,
       [.authGetUser]) := by
  have hc : ¬(sanitizeInput fd.question = "" ∨
      ((fd.options.filter trimmedNonempty).map sanitizeInput).length < 2) := by
    push_neg
    refine ⟨hsq, ?_⟩
    rw [List.length_map]
    exact hto
  simp only [createPollFinal]
  rw [if_neg hc]
  cases hue : auth.userError with
  | some m => simp
  | none => simp [hu]

/-- `updatePoll` with valid form data and no logged-in user. -/
lemma updatePoll_unauth (auth : AuthState) (db : DbBackend) (pollId : String)
    (fd : FormData)
    (hq : fd.question ≠ "")
    (ho : 2 ≤ (fd.options.filter (fun o => decide (o ≠ ""))).length)
    (hu : auth.user = none) :
    updatePoll auth db pollId fd =
      (⟨some (auth.userError.getD "You must be logged in to update a poll.")⟩,
       [.authGetUser]) := by
  have hc : ¬(fd.question = "" ∨
      (fd.options.filter (fun o => decide (o ≠ ""))).length < 2) := by
    push_neg
    exact ⟨hq, ho⟩
  simp only [updatePoll]
  rw [if_neg hc]
  cases hue : auth.userError with
  | some m => simp
  | none => simp [hu]

/-- `updatePoll` with valid form data and a logged-in user: the result is the
backend's update error (null on success) and the trace is the auth lookup
followed by the update filtered by both the poll id and the caller's id. -/
lemma updatePoll_authed (auth : AuthState) (db : DbBackend) (pollId : String)
    (fd : FormData) (u : AuthUser)
    (hq : fd.question ≠ "")
    (ho : 2 ≤ (fd.options.filter (fun o => decide (o ≠ ""))).length)
    (hue : auth.userError = none) (hu : auth.user = some u) :
    updatePoll auth db pollId fd =
      (⟨db.updateError⟩,
       [.authGetUser,
        .updateWhere pollId u.id fd.question
          (fd.options.filter (fun o => decide (o ≠ "")))]) := by
  have hc : ¬(fd.question = "" ∨
      (fd.options.filter (fun o => decide (o ≠ ""))).length < 2) := by
    push_neg
    exact ⟨hq, ho⟩
  simp only [updatePoll]
  rw [if_neg hc]
  cases hupd : db.updateError <;> simp [hue, hu, hupd]

/-- Final-revision `createPoll` with valid form data and a logged-in user
issues the insert carrying the sanitized question and options. -/
lemma createPollFinal_insert_mem (auth : AuthState) (db : DbBackend)
    (fd : FormData) (u : AuthUser)
    (hsq : sanitizeInput fd.question ≠ "")
    (hto : 2 ≤ (fd.options.filter trimmedNonempty).length)
    (hue : auth.userError = none) (hu : auth.user = some u) :
    Effect.insertPoll db.genId u.id (sanitizeInput fd.question)
        ((fd.options.filter trimmedNonempty).map sanitizeInput) db.genCreatedAt
      ∈ (createPollFinal auth db fd).2 := by
  have hc : ¬(sanitizeInput fd.question = "" ∨
      ((fd.options.filter trimmedNonempty).map sanitizeInput).length < 2) := by
    push_neg
    refine ⟨hsq, ?_⟩
    rw [List.length_map]
    exact hto
  simp only [createPollFinal]
  rw [if_neg hc]
  cases hins : db.insertPollError <;> simp [hue, hu, hins]

/-! ### Claim theorems -/

/-- C1: for every call to `createPoll` (either revision) or `updatePoll`
whose form data has an empty question, or fewer than two nonempty options
remaining after empty options are filtered out, the operation returns the
validation error message and issues no backend call at all, in particular no
insert or update. -/
theorem create_update_reject_invalid :
    ∀ (auth : AuthState) (db : DbBackend) (pollId : String) (fd : FormData),
      (fd.question = "" ∨
        (fd.options.filter (fun o => decide (o ≠ ""))).length < 2) →
      (createPoll auth db fd =
          (⟨some "Please provide a question and at least two options."⟩, [])
        ∧ createPollFinal auth db fd =
          (⟨some "Please provide a question and at least two options."⟩, [])
        ∧ updatePoll auth db pollId fd =
          (⟨some "Please provide a question and at least two options."⟩, [])) :=
  fun auth db pollId fd h =>
    ⟨createPoll_invalid auth db fd h, createPollFinal_invalid auth db fd h,
     updatePoll_invalid auth db pollId fd h⟩

/-- Witness for C1 at a concrete invalid input (empty question). -/
theorem create_update_reject_invalid_witness :
    createPoll authA dbOk ⟨"", ["Pizza", "Salad"]⟩ =
        (⟨some "Please provide a question and at least two options."⟩, [])
      ∧ createPollFinal authA dbOk ⟨"", ["Pizza", "Salad"]⟩ =
        (⟨some "Please provide a question and at least two options."⟩, [])
      ∧ updatePoll authA dbOk "poll-1" ⟨"", ["Pizza", "Salad"]⟩ =
        (⟨some "Please provide a question and at least two options."⟩, []) :=
  create_update_reject_invalid authA dbOk "poll-1" ⟨"", ["Pizza", "Salad"]⟩
    (Or.inl rfl)

/-- C10: in both revisions of `createPoll` and in `updatePoll`, validation
runs before authentication is consulted: on invalid form data the validation
message is returned and the auth backend is never queried. -/
theorem validation_before_auth :
    ∀ (auth : AuthState) (db : DbBackend) (pollId : String) (fd : FormData),
      (fd.question = "" ∨
        (fd.options.filter (fun o => decide (o ≠ ""))).length < 2) →
      ((createPoll auth db fd).1.error =
          some "Please provide a question and at least two options."
        ∧ Effect.authGetUser ∉ (createPoll auth db fd).2
        ∧ (createPollFinal auth db fd).1.error =
          some "Please provide a question and at least two options."
        ∧ Effect.authGetUser ∉ (createPollFinal auth db fd).2
        ∧ (updatePoll auth db pollId fd).1.error =
          some "Please provide a question and at least two options."
        ∧ Effect.authGetUser ∉ (updatePoll auth db pollId fd).2) := by
  intro auth db pollId fd h
  rw [createPoll_invalid auth db fd h, createPollFinal_invalid auth db fd h,
      updatePoll_invalid auth db pollId fd h]
  exact ⟨rfl, by simp, rfl, by simp, rfl, by simp⟩

/-- Witness for C10 at a concrete invalid input (a single option). -/
theorem validation_before_auth_witness :
    (createPoll authAnon dbOk ⟨"Lunch?", ["OnlyOne"]⟩).1.error =
        some "Please provide a question and at least two options."
      ∧ Effect.authGetUser ∉ (createPoll authAnon dbOk ⟨"Lunch?", ["OnlyOne"]⟩).2
      ∧ (createPollFinal authAnon dbOk ⟨"Lunch?", ["OnlyOne"]⟩).1.error =
        some "Please provide a question and at least two options."
      ∧ Effect.authGetUser ∉ (createPollFinal authAnon dbOk ⟨"Lunch?", ["OnlyOne"]⟩).2
      ∧ (updatePoll authAnon dbOk "poll-1" ⟨"Lunch?", ["OnlyOne"]⟩).1.error =
        some "Please provide a question and at least two options."
      ∧ Effect.authGetUser ∉ (updatePoll authAnon dbOk "poll-1" ⟨"Lunch?", ["OnlyOne"]⟩).2 :=
  validation_before_auth authAnon dbOk "poll-1" ⟨"Lunch?", ["OnlyOne"]⟩
    (Or.inr (by decide))

/-- C5: with valid form data and no logged-in user, both revisions of
`createPoll` and `updatePoll` return the backend's authentication error
verbatim when present and the fixed "must be logged in" message otherwise,
and issue no backend write. -/
theorem create_update_unauthenticated :
    ∀ (auth : AuthState) (db : DbBackend) (pollId : String) (fd : FormData),
      auth.user = none →
      sanitizeInput fd.question ≠ "" →
      2 ≤ (fd.options.filter trimmedNonempty).length →
      ((createPoll auth db fd).1.error =
          some (auth.userError.getD "You must be logged in to create a poll.")
        ∧ (createPoll auth db fd).2.filter Effect.isWrite = []
        ∧ (createPollFinal auth db fd).1.error =
          some (auth.userError.getD "You must be logged in to create a poll.")
        ∧ (createPollFinal auth db fd).2.filter Effect.isWrite = []
        ∧ (updatePoll auth db pollId fd).1.error =
          some (auth.userError.getD "You must be logged in to update a poll.")
        ∧ (updatePoll auth db pollId fd).2.filter Effect.isWrite = []) := by
  intro auth db pollId fd hu hsq hto
  have hq : fd.question ≠ "" := fun he => hsq (by rw [he]; rfl)
  have ho : 2 ≤ (fd.options.filter (fun o => decide (o ≠ ""))).length :=
    Nat.le_trans hto
      (length_filter_mono _
        (fun a ha => decide_eq_true (ne_empty_of_trimmedNonempty ha)))
  rw [createPoll_unauth auth db fd hq ho hu,
      createPollFinal_unauth auth db fd hsq hto hu,
      updatePoll_unauth auth db pollId fd hq ho hu]
  exact ⟨rfl, rfl, rfl, rfl, rfl, rfl⟩

/-- Witness for C5: an anonymous caller with valid form data. -/
theorem create_update_unauthenticated_witness :
    (createPoll authAnon dbOk ⟨"Lunch?", ["Pizza", "Salad"]⟩).1.error =
        some (authAnon.userError.getD "You must be logged in to create a poll.")
      ∧ (createPoll authAnon dbOk ⟨"Lunch?", ["Pizza", "Salad"]⟩).2.filter Effect.isWrite = []
      ∧ (createPollFinal authAnon dbOk ⟨"Lunch?", ["Pizza", "Salad"]⟩).1.error =
        some (authAnon.userError.getD "You must be logged in to create a poll.")
      ∧ (createPollFinal authAnon dbOk ⟨"Lunch?", ["Pizza", "Salad"]⟩).2.filter Effect.isWrite = []
      ∧ (updatePoll authAnon dbOk "poll-1" ⟨"Lunch?", ["Pizza", "Salad"]⟩).1.error =
        some (authAnon.userError.getD "You must be logged in to update a poll.")
      ∧ (updatePoll authAnon dbOk "poll-1" ⟨"Lunch?", ["Pizza", "Salad"]⟩).2.filter Effect.isWrite = [] :=
  create_update_unauthenticated authAnon dbOk "poll-1" ⟨"Lunch?", ["Pizza", "Salad"]⟩
    rfl (by decide) (by decide)

/-- C3: `deletePoll` consults neither the session nor the poll's owner: for
every caller (authenticated or not) the issued delete removes exactly the
rows whose id matches, the returned error is exactly the backend's delete
error (null on success), and on success the `/polls` listing is marked
stale. -/
theorem deletePoll_spec :
    ∀ (caller : AuthState) (db : DbBackend) (i : String) (t : List Poll),
      ((deletePoll caller db i).1.error = db.deleteError
        ∧ Effect.authGetUser ∉ (deletePoll caller db i).2
        ∧ (db.deleteError = none →
            applyTrace t (deletePoll caller db i).2 =
                t.filter (fun p => decide (p.id ≠ i))
              ∧ Effect.revalidate "/polls" ∈ (deletePoll caller db i).2)) := by
  intro caller db i t
  cases hd : db.deleteError with
  | some m =>
    refine ⟨by simp [deletePoll, hd], by simp [deletePoll, hd], ?_⟩
    intro hnone
    exact Option.noConfusion hnone
  | none =>
    exact ⟨by simp [deletePoll, hd], by simp [deletePoll, hd],
      fun _ => ⟨by simp [deletePoll, hd, applyTrace, applyEffect],
        by simp [deletePoll, hd]⟩⟩

/-- Witness for C3: an anonymous caller deletes user A's poll. -/
theorem deletePoll_spec_witness :
    applyTrace [pollA, pollB] (deletePoll authAnon dbOk "poll-1").2 = [pollB]
      ∧ Effect.revalidate "/polls" ∈ (deletePoll authAnon dbOk "poll-1").2
      ∧ (deletePoll authAnon dbOk "poll-1").1.error = none := by
  have h := deletePoll_spec authAnon dbOk "poll-1" [pollA, pollB]
  have hs := h.2.2 rfl
  exact ⟨hs.1.trans (by decide), hs.2, h.1.trans rfl⟩

/-- C6: `updatePoll` issues its update filtered by both the poll id and the
caller's user id, so an authenticated caller who owns no matching row changes
nothing (the table is unchanged) while the operation still reports no
error. -/
theorem updatePoll_nonowner_silent_noop :
    ∀ (auth : AuthState) (db : DbBackend) (pollId : String) (fd : FormData)
      (u : AuthUser) (t : List Poll),
      auth.userError = none →
      auth.user = some u →
      fd.question ≠ "" →
      2 ≤ (fd.options.filter (fun o => decide (o ≠ ""))).length →
      db.updateError = none →
      (∀ p ∈ t, ¬(p.id = pollId ∧ p.user_id = u.id)) →
      ((updatePoll auth db pollId fd).1.error = none
        ∧ Effect.updateWhere pollId u.id fd.question
            (fd.options.filter (fun o => decide (o ≠ "")))
            ∈ (updatePoll auth db pollId fd).2
        ∧ applyTrace t (updatePoll auth db pollId fd).2 = t) := by
  intro auth db pollId fd u t hue hu hq ho hupd hown
  rw [updatePoll_authed auth db pollId fd u hq ho hue hu]
  refine ⟨by rw [hupd], by simp, ?_⟩
  simp only [applyTrace, List.foldl_cons, List.foldl_nil, applyEffect]
  have hfix : ∀ p ∈ t,
      (if p.id = pollId ∧ p.user_id = u.id then
        { p with question := fd.question,
                 options := fd.options.filter (fun o => decide (o ≠ "")) }
       else p) = p :=
    fun p hp => if_neg (hown p hp)
  exact (List.map_congr_left hfix).trans (List.map_id t)

/-- Witness for C6: user B updates user A's poll; the table is unchanged and
no error is reported. -/
theorem updatePoll_nonowner_silent_noop_witness :
    (updatePoll authB dbOk "poll-1" ⟨"Hijack?", ["Yes", "No"]⟩).1.error = none
      ∧ Effect.updateWhere "poll-1" "user-b" "Hijack?" ["Yes", "No"]
          ∈ (updatePoll authB dbOk "poll-1" ⟨"Hijack?", ["Yes", "No"]⟩).2
      ∧ applyTrace [pollA, pollB]
          (updatePoll authB dbOk "poll-1" ⟨"Hijack?", ["Yes", "No"]⟩).2 =
        [pollA, pollB] :=
  updatePoll_nonowner_silent_noop authB dbOk "poll-1" ⟨"Hijack?", ["Yes", "No"]⟩
    userB [pollA, pollB] rfl rfl (by decide) (by decide) rfl (by decide)

/-- C7: `submitVote` never requires authentication: for every caller it
issues exactly one vote insert carrying the caller's id when present and null
otherwise, ignores the poll table and the option bounds entirely, and returns
exactly the backend's insert error (null on success). -/
theorem submitVote_spec :
    ∀ (caller : AuthState) (db : DbBackend) (pollId : String) (optionIndex : Int),
      submitVote caller db pollId optionIndex =
        (⟨db.insertVoteError⟩,
         [Effect.authGetUser,
          Effect.insertVote pollId (caller.user.map AuthUser.id) optionIndex])
      ∧ ∀ vs : List Vote,
          applyVoteTrace vs (submitVote caller db pollId optionIndex).2 =
            vs ++ [⟨pollId, caller.user.map AuthUser.id, optionIndex⟩] := by
  intro caller db pollId optionIndex
  constructor
  · cases h : db.insertVoteError <;> simp [submitVote, h]
  · intro vs
    cases h : db.insertVoteError <;>
      simp [submitVote, h, applyVoteTrace, applyVoteEffect]

/-- C8: with valid form data and a logged-in user, the final-revision create
path persists the sanitized question and the sanitized filtered options,
while the update path (of the final revision, identical in the first) persists
the submitted question and the filtered submitted options with no
sanitization applied. -/
theorem sanitize_create_not_update :
    ∀ (auth : AuthState) (db : DbBackend) (pollId : String) (fd : FormData)
      (u : AuthUser),
      auth.userError = none →
      auth.user = some u →
      sanitizeInput fd.question ≠ "" →
      2 ≤ (fd.options.filter trimmedNonempty).length →
      (Effect.insertPoll db.genId u.id (sanitizeInput fd.question)
          ((fd.options.filter trimmedNonempty).map sanitizeInput) db.genCreatedAt
          ∈ (createPollFinal auth db fd).2
        ∧ Effect.updateWhere pollId u.id fd.question
            (fd.options.filter (fun o => decide (o ≠ "")))
            ∈ (updatePoll auth db pollId fd).2) := by
  intro auth db pollId fd u hue hu hsq hto
  have hq : fd.question ≠ "" := fun he => hsq (by rw [he]; rfl)
  have ho : 2 ≤ (fd.options.filter (fun o => decide (o ≠ ""))).length :=
    Nat.le_trans hto
      (length_filter_mono _
        (fun a ha => decide_eq_true (ne_empty_of_trimmedNonempty ha)))
  refine ⟨createPollFinal_insert_mem auth db fd u hsq hto hue hu, ?_⟩
  rw [updatePoll_authed auth db pollId fd u hq ho hue hu]
  simp

/-- Witness for C8: markup in the form data is stripped on the create path
and persisted untouched on the update path. -/
theorem sanitize_create_not_update_witness :
    Effect.insertPoll "gen-1" "user-a" "Hi" ["A", "B"] 42
        ∈ (createPollFinal authA dbOk ⟨"<b>Hi</b>", ["<i>A</i>", "B"]⟩).2
      ∧ Effect.updateWhere "poll-1" "user-a" "<b>Hi</b>" ["<i>A</i>", "B"]
        ∈ (updatePoll authA dbOk "poll-1" ⟨"<b>Hi</b>", ["<i>A</i>", "B"]⟩).2 :=
  sanitize_create_not_update authA dbOk "poll-1" ⟨"<b>Hi</b>", ["<i>A</i>", "B"]⟩
    userA rfl rfl (by decide) (by decide)

/-- C9: the modelled sanitizer is idempotent, strips the script element of
the spec's example while preserving the plain text "Hello", and its output
never contains a left angle bracket, so it contains no HTML or script
markup. -/
theorem sanitizeInput_spec :
    (∀ x, sanitizeInput (sanitizeInput x) = sanitizeInput x)
      ∧ sanitizeInput "<script>alert(1)</script>Hello" = "Hello"
      ∧ (∀ x, '<' ∉ (sanitizeInput x).data) := by
  refine ⟨?_, by decide, ?_⟩
  · intro x
    simp only [sanitizeInput]
    exact congrArg String.mk (san_text_id _ (san_lt_not_mem x.data .text))
  · intro x
    exact san_lt_not_mem x.data .text

/-- C2: the auth pass-throughs, `submitVote` and `deletePoll` return exactly
the backend's error string or null, but the final revision's `getUserPolls`
throws a TypeError instead of returning a result object when no user is
authenticated, contradicting the uniform no-throw result contract. -/
theorem uniform_results_but_final_getUserPolls_throws :
    (∀ (b : AuthBackend) (d : LoginFormData), (login b d).error = b.signInError)
      ∧ (∀ (b : AuthBackend) (d : RegisterFormData),
          (register b d).error = b.signUpError)
      ∧ (∀ b : AuthBackend, (logout b).error = b.signOutError)
      ∧ (∀ (caller : AuthState) (db : DbBackend) (pollId : String) (idx : Int),
          (submitVote caller db pollId idx).1.error = db.insertVoteError)
      ∧ (∀ (caller : AuthState) (db : DbBackend) (i : String),
          (deletePoll caller db i).1.error = db.deleteError)
      ∧ getUserPollsFinal authAnon dbOk =
          .thrown "TypeError: Cannot destructure property 'id' of 'user' as it is null." := by
  refine ⟨fun b d => rfl, fun b d => rfl, fun b => rfl, ?_, ?_, rfl⟩
  · intro caller db pollId idx
    cases h : db.insertVoteError <;> simp [submitVote, h]
  · intro caller db i
    cases h : db.deleteError <;> simp [deletePoll, h]

/-- C4: with a logged-in user the first revision's `getUserPolls` returns,
with no error, exactly the polls owned by the caller sorted by `created_at`
descending (an empty list when the caller owns none), and surfaces a select
failure as an error with an empty list; without a logged-in user the first
revision returns the "Not authenticated" error state while the final revision
throws instead of returning a result. -/
theorem getUserPolls_spec :
    (∀ (auth : AuthState) (db : DbBackend) (u : AuthUser),
        auth.user = some u → db.selectError = none →
        ((getUserPolls auth db).1.error = none
          ∧ (∀ p : Poll,
              p ∈ (getUserPolls auth db).1.polls ↔ p ∈ db.polls ∧ p.user_id = u.id)
          ∧ List.Sorted createdGe (getUserPolls auth db).1.polls
          ∧ ((∀ p ∈ db.polls, p.user_id ≠ u.id) →
              (getUserPolls auth db).1.polls = [])))
      ∧ (∀ (auth : AuthState) (db : DbBackend) (u : AuthUser) (m : String),
          auth.user = some u → db.selectError = some m →
          (getUserPolls auth db).1 = ⟨[], some m⟩)
      ∧ (∀ (auth : AuthState) (db : DbBackend),
          auth.user = none →
          (getUserPolls auth db).1 = ⟨[], some "Not authenticated"⟩)
      ∧ (∀ (auth : AuthState) (db : DbBackend),
          auth.user = none →
          getUserPollsFinal auth db =
            .thrown "TypeError: Cannot destructure property 'id' of 'user' as it is null.") := by
  refine ⟨?_, ?_, ?_, ?_⟩
  · intro auth db u hu hsel
    have hres : (getUserPolls auth db).1 = ⟨selectByOwner db.polls u.id, none⟩ := by
      simp [getUserPolls, hu, hsel]
    rw [hres]
    refine ⟨rfl, ?_, ?_, ?_⟩
    · intro p
      simp [selectByOwner, List.mem_filter]
    · exact List.sorted_insertionSort createdGe _
    · intro hnone
      rw [List.eq_nil_iff_forall_not_mem]
      intro p hp
      have : p ∈ db.polls ∧ p.user_id = u.id := by
        simpa [selectByOwner, List.mem_filter] using hp
      exact hnone p this.1 this.2
  · intro auth db u m hu hsel
    simp [getUserPolls, hu, hsel]
  · intro auth db hu
    simp [getUserPolls, hu]
  · intro auth db hu
    simp [getUserPollsFinal, hu]

/-- Witness for C4: user A sees exactly their poll; an anonymous caller gets
the error state from the first revision and a thrown TypeError from the
final one. -/
theorem getUserPolls_spec_witness :
    (getUserPolls authA dbOk).1.error = none
      ∧ pollA ∈ (getUserPolls authA dbOk).1.polls
      ∧ (getUserPolls authAnon dbOk).1 = ⟨[], some "Not authenticated"⟩
      ∧ getUserPollsFinal authAnon dbOk =
          .thrown "TypeError: Cannot destructure property 'id' of 'user' as it is null." :=
  ⟨(getUserPolls_spec.1 authA dbOk userA rfl rfl).1,
   ((getUserPolls_spec.1 authA dbOk userA rfl rfl).2.1 pollA).mpr ⟨by decide, rfl⟩,
   getUserPolls_spec.2.2.1 authAnon dbOk rfl,
   getUserPolls_spec.2.2.2 authAnon dbOk rfl⟩
